import Mathlib

/-!
Shallow embedding of the wlroots-rs resource handle and liveliness-tracking
core (src/types/input/tablet_pad.rs, src/types/output/output.rs,
src/manager/tablet_pad_handler.rs).

The Rust code shares an `Rc<Cell<bool>>` ("liveliness flag") between one
owning Resource and any number of `Weak`-holding Handles.  We embed the
per-native-identity shared cell as an explicit state record:
  - `strong` is the Rc strong count (number of live Resource values and
    transient Rc clones holding the cell);
  - `flag` is the contents of the `Cell<bool>` (`true` = checked out).
A `Weak` upgrade succeeds exactly when the strong count is positive and the
weak pointer was obtained from a live cell (`connected = true`; a handle
built by `Handle::new()` holds `Weak::new()`, i.e. `connected = false`).
Upgrading a `Weak` produces a fresh `Rc`, incrementing the strong count;
dropping an `Rc` decrements it.  Raw pointers are embedded as `Nat`
addresses (`0` stands for the null pointer).

Panics are embedded explicitly: a closure passed to `run` either returns a
value or panics (`ClosureRes`), and `run` itself can finish normally, with a
typed error, by re-raising the closure's panic after cleanup
(`RunResult.closurePanic`), or by the fatal
`panic!("Lock in incorrect state!")` sanity check (`RunResult.fatalPanic`).
Logging (`wlr_log!`) has no semantic content and is not modelled.
-/

/-- Error type of `errors::HandleErr` as used by the handle operations. -/
inductive HandleErr where
  | AlreadyBorrowed
  | AlreadyDropped
deriving DecidableEq, Repr

/-- Result alias mirroring `errors::HandleResult<T> = Result<T, HandleErr>`. -/
abbrev HandleResult (T : Type) := Except HandleErr T

/-- State of one shared liveliness cell `Rc<Cell<bool>>` for a tablet pad:
the Rc strong count and the boolean contents of the cell. -/
structure CellState where
  strong : Nat
  flag : Bool
deriving DecidableEq, Repr

/-- Embedding of `Weak::<Cell<bool>>::upgrade`: succeeds iff the weak pointer
is connected to a cell whose strong count is still positive, and then yields
a fresh strong `Rc`, incrementing the count. -/
def weakUpgrade (connected : Bool) (s : CellState) : Option CellState :=
  if connected = true ∧ 0 < s.strong then some { s with strong := s.strong + 1 }
  else none

/-- Embedding of `TabletPad` (the owning Resource): its `liveliness` Rc is
modelled by the strong count of the shared `CellState`, so the value itself
carries only the native identities. -/
structure TabletPad where
  device : Nat
  pad : Nat
deriving DecidableEq, Repr

/-- Embedding of `TabletPadHandle`: `connected` models whether its `handle`
field is a real `Weak` to the liveliness cell (`Weak::new()` when false). -/
structure TabletPadHandle where
  connected : Bool
  device : Nat
  pad : Nat
deriving DecidableEq, Repr

/-- Embedding of `TabletPad::new_from_input_device`: for a matching device
type it builds a fresh Resource with `liveliness = Rc::new(Cell::new(false))`
(strong count 1, flag false); any other device type yields `None`. -/
def TabletPad.new_from_input_device (isTabletPad : Bool) (device pad : Nat) :
    Option (TabletPad × CellState) :=
  if isTabletPad then some ({ device := device, pad := pad },
                            { strong := 1, flag := false })
  else none

/-- Embedding of `TabletPad::weak_reference`: `Rc::downgrade` of the live
liveliness Rc gives a connected weak pointer; the device pointer is cloned
and the pad pointer copied. -/
def TabletPad.weak_reference (p : TabletPad) : TabletPadHandle :=
  { connected := true, device := p.device, pad := p.pad }

/-- Embedding of `impl Drop for TabletPad`: the custom body only logs (it
returns early unless the strong count is 1), after which the `liveliness`
field's Rc is dropped, decrementing the strong count. -/
def TabletPad.drop (s : CellState) : CellState :=
  { s with strong := s.strong - 1 }

/-- Embedding of `TabletPadHandle::new` (also `Default`): a `Weak::new()`
handle with null device and pad pointers; it can never upgrade. -/
def TabletPadHandle.new : TabletPadHandle :=
  { connected := false, device := 0, pad := 0 }

/-- Embedding of `impl Default for TabletPadHandle`. -/
def TabletPadHandle.default : TabletPadHandle := TabletPadHandle.new

/-- Embedding of `impl Clone for TabletPadHandle`: clones the weak pointer,
the device pointer and the pad pointer. -/
def TabletPadHandle.clone (h : TabletPadHandle) : TabletPadHandle :=
  { pad := h.pad, connected := h.connected, device := h.device }

/-- Embedding of `TabletPadHandle::input_device`: upgrades the weak pointer
(the transient Rc is dropped again at once, so the state is unchanged) and
returns the stored device pointer, or `AlreadyDropped`. -/
def TabletPadHandle.input_device (h : TabletPadHandle) (s : CellState) :
    HandleResult Nat :=
  match weakUpgrade h.connected s with
  | some _ => .ok h.device
  | none => .error .AlreadyDropped

/-- Embedding of `TabletPad::from_handle`: upgrades the handle's weak pointer
into the `liveliness` Rc held by the new Resource (strong count +1), reads
the device via `input_device` and copies the pad pointer.  On the (here
unreachable) `input_device` error the fresh Rc is dropped again. -/
def TabletPad.from_handle (h : TabletPadHandle) (s : CellState) :
    HandleResult TabletPad × CellState :=
  match weakUpgrade h.connected s with
  | none => (.error .AlreadyDropped, s)
  | some s1 =>
    match h.input_device s1 with
    | .error e => (.error e, s)
    | .ok dev => (.ok { device := dev, pad := h.pad }, s1)

/-- Embedding of `TabletPadHandle::upgrade`: upgrades the weak pointer into a
transient `check` Rc, reconstructs a Resource via `from_handle`, fails with
`AlreadyBorrowed` when the cell already reads `true` (dropping the fresh
Resource and the `check` Rc again), and otherwise sets the cell to `true`;
the `check` Rc is dropped when the closure ends, so a successful upgrade
leaves the strong count one higher (the returned Resource's Rc). -/
def TabletPadHandle.upgrade (h : TabletPadHandle) (s : CellState) :
    HandleResult TabletPad × CellState :=
  match weakUpgrade h.connected s with
  | none => (.error .AlreadyDropped, s)
  | some sc =>
    match TabletPad.from_handle h sc with
    | (.error e, s1) => (.error e, { s1 with strong := s1.strong - 1 })
    | (.ok pad, s1) =>
      if s1.flag = true then
        (.error .AlreadyBorrowed,
         { TabletPad.drop s1 with strong := (TabletPad.drop s1).strong - 1 })
      else
        (.ok pad, { s1 with strong := s1.strong - 1, flag := true })

/-- Outcome of the closure passed to `run`, as observed by
`panic::catch_unwind`: a normal return value or a panic. -/
inductive ClosureRes (R : Type) where
  | ok (r : R)
  | panicked
deriving DecidableEq, Repr

/-- Observable outcome of a `run` call: a successful value, a typed
`HandleErr`, the re-raised panic of the closure (`panic::resume_unwind`), or
the fatal sanity-check panic ("Lock in incorrect state!"). -/
inductive RunResult (R : Type) where
  | ok (r : R)
  | err (e : HandleErr)
  | closurePanic
  | fatalPanic
deriving DecidableEq, Repr

/-- Embedding of `TabletPadHandle::run`.  The closure receives the upgraded
Resource and may mutate the shared cell state (this is how reentrant misuse
is expressed).  After the closure, the code re-upgrades the weak pointer; if
that resolves and the cell reads `false` it panics fatally (unwinding drops
the transient `check` Rc and the Resource), otherwise it resets the cell to
`false`, drops the transient Rc, and finally returns the closure's result —
re-raising its panic if it had one — after the local Resource is dropped. -/
def TabletPadHandle.run {R : Type} (h : TabletPadHandle)
    (runner : TabletPad → CellState → ClosureRes R × CellState)
    (s : CellState) : RunResult R × CellState :=
  match TabletPadHandle.upgrade h s with
  | (.error e, s') => (.err e, s')
  | (.ok pad, s1) =>
    match runner pad s1 with
    | (res, s2) =>
      match weakUpgrade h.connected s2 with
      | some sc =>
        if sc.flag = false then
          (.fatalPanic, TabletPad.drop { sc with strong := sc.strong - 1 })
        else
          match res with
          | .ok r =>
            (.ok r, TabletPad.drop { strong := sc.strong - 1, flag := false })
          | .panicked =>
            (.closurePanic,
             TabletPad.drop { strong := sc.strong - 1, flag := false })
      | none =>
        match res with
        | .ok r => (.ok r, TabletPad.drop s2)
        | .panicked => (.closurePanic, TabletPad.drop s2)

/-- Iterated `run` calls on one handle, threading the cell state. -/
def TabletPadHandle.runAll (h : TabletPadHandle)
    (fs : List (TabletPad → CellState → ClosureRes Unit × CellState))
    (s : CellState) : List (RunResult Unit) × CellState :=
  match fs with
  | [] => ([], s)
  | f :: rest =>
    match TabletPadHandle.run h f s with
    | (r, s') =>
      match TabletPadHandle.runAll h rest s' with
      | (rs, s'') => (r :: rs, s'')

/-- Embedding of `impl PartialEq for TabletPadHandle`: equality compares only
the stored pad pointer. -/
def TabletPadHandle.eq (a b : TabletPadHandle) : Bool :=
  a.pad == b.pad

/-- Embedding of `impl Hash for TabletPadHandle`: only `self.pad` is fed to
the hasher, abstracted here as an arbitrary function on addresses. -/
def TabletPadHandle.hashWith (hasher : Nat → Nat) (a : TabletPadHandle) : Nat :=
  hasher a.pad

/-- State of the shared liveliness cell of an `Output`.  Besides the Rc
strong count and the `Cell<bool>` contents it records how many times the
`ManuallyDrop<OutputDamage>` of the output has been explicitly destroyed
(`ManuallyDrop::drop`), so that "destroyed exactly once" is observable. -/
structure OutputCell where
  strong : Nat
  flag : Bool
  damageDrops : Nat
deriving DecidableEq, Repr

/-- Embedding of `Weak::<Cell<bool>>::upgrade` for the output cell. -/
def weakUpgradeOut (connected : Bool) (s : OutputCell) : Option OutputCell :=
  if connected = true ∧ 0 < s.strong then some { s with strong := s.strong + 1 }
  else none

/-- Embedding of `Output` (the owning Resource): the liveliness Rc is the
strong count of the shared `OutputCell`; the value itself carries the damage
tracker pointer and the native output pointer. -/
structure Output where
  damage : Nat
  output : Nat
deriving DecidableEq, Repr

/-- Embedding of `OutputHandle` (derives `Clone` structurally). -/
structure OutputHandle where
  connected : Bool
  damage : Nat
  output : Nat
deriving DecidableEq, Repr

/-- Embedding of `Output::new`: a fresh liveliness cell
`Rc::new(Cell::new(false))` (strong count 1, flag false) with an untouched
damage tracker; the `OutputState` box stored in `(*output).data` is bridge
bookkeeping with no bearing on the cell state. -/
def Output.new (damage output : Nat) : Output × OutputCell :=
  ({ damage := damage, output := output },
   { strong := 1, flag := false, damageDrops := 0 })

/-- Embedding of `Output::weak_reference`. -/
def Output.weak_reference (o : Output) : OutputHandle :=
  { connected := true, damage := o.damage, output := o.output }

/-- Embedding of `impl Drop for Output`: when this value is the last strong
holder of the liveliness flag (strong count 1) the body destroys the
`ManuallyDrop<OutputDamage>` and tears down the layout bookkeeping, then the
Rc field drops, leaving strong count 0; otherwise the body returns early and
only the Rc field drops. -/
def Output.drop (s : OutputCell) : OutputCell :=
  if s.strong = 1 then
    { strong := 0, flag := s.flag, damageDrops := s.damageDrops + 1 }
  else
    { s with strong := s.strong - 1 }

/-- Embedding of `OutputHandle::new` (also `Default`): a `Weak::new()` handle
with null damage and output pointers. -/
def OutputHandle.new : OutputHandle :=
  { connected := false, damage := 0, output := 0 }

/-- Embedding of `impl Default for OutputHandle`. -/
def OutputHandle.default : OutputHandle := OutputHandle.new

/-- Embedding of the derived `Clone` for `OutputHandle`. -/
def OutputHandle.clone (h : OutputHandle) : OutputHandle :=
  { connected := h.connected, damage := h.damage, output := h.output }

/-- Embedding of `Output::from_handle`: upgrades the weak pointer into the
`liveliness` Rc of the reconstructed Resource and rebuilds the damage
tracker from the stored pointer. -/
def Output.from_handle (h : OutputHandle) (s : OutputCell) :
    HandleResult Output × OutputCell :=
  match weakUpgradeOut h.connected s with
  | none => (.error .AlreadyDropped, s)
  | some s1 => (.ok { damage := h.damage, output := h.output }, s1)

/-- Embedding of `OutputHandle::upgrade`, with the same shape as
`TabletPadHandle::upgrade`: transient `check` Rc, reconstruction via
`from_handle`, `AlreadyBorrowed` when the cell already reads `true`
(dropping the fresh Resource and the `check` Rc), else the cell is set to
`true` and the `check` Rc dropped. -/
def OutputHandle.upgrade (h : OutputHandle) (s : OutputCell) :
    HandleResult Output × OutputCell :=
  match weakUpgradeOut h.connected s with
  | none => (.error .AlreadyDropped, s)
  | some sc =>
    match Output.from_handle h sc with
    | (.error e, s1) => (.error e, { s1 with strong := s1.strong - 1 })
    | (.ok out, s1) =>
      if s1.flag = true then
        (.error .AlreadyBorrowed,
         { Output.drop s1 with strong := (Output.drop s1).strong - 1 })
      else
        (.ok out, { s1 with strong := s1.strong - 1, flag := true })

/-- Embedding of `OutputHandle::run`, mirroring `TabletPadHandle::run`. -/
def OutputHandle.run {R : Type} (h : OutputHandle)
    (runner : Output → OutputCell → ClosureRes R × OutputCell)
    (s : OutputCell) : RunResult R × OutputCell :=
  match OutputHandle.upgrade h s with
  | (.error e, s') => (.err e, s')
  | (.ok out, s1) =>
    match runner out s1 with
    | (res, s2) =>
      match weakUpgradeOut h.connected s2 with
      | some sc =>
        if sc.flag = false then
          (.fatalPanic, Output.drop { sc with strong := sc.strong - 1 })
        else
          match res with
          | .ok r =>
            (.ok r, Output.drop { strong := sc.strong - 1, flag := false,
                                  damageDrops := sc.damageDrops })
          | .panicked =>
            (.closurePanic,
             Output.drop { strong := sc.strong - 1, flag := false,
                           damageDrops := sc.damageDrops })
      | none =>
        match res with
        | .ok r => (.ok r, Output.drop s2)
        | .panicked => (.closurePanic, Output.drop s2)

/-- Embedding of `impl PartialEq for OutputHandle`: equality compares only
the stored output pointer. -/
def OutputHandle.eq (a b : OutputHandle) : Bool :=
  a.output == b.output

/-- Listener slots of a `TabletPadWrapper`, in the order the destroy
notification removes them. -/
inductive PadListener where
  | onDestroy
  | button
  | ring
  | strip
deriving DecidableEq, Repr

/-- Observable actions performed by `TabletPadWrapper::on_destroy_notify`. -/
inductive DestroyEvent where
  | destroyedCallback (h : TabletPadHandle)
  | removeListener (l : PadListener)
  | freeWrapper
deriving DecidableEq, Repr

/-- Embedding of `TabletPadWrapper::on_destroy_notify` as the trace of its
observable actions: when the compositor handle resolves it invokes the
user's `destroyed` callback with `pad.weak_reference()`, then removes the
four wayland listeners via `wl_list_remove`, then reclaims the wrapper box
(`Box::from_raw` of the input device's data slot); when the compositor
handle does not resolve it returns early and performs nothing. -/
def TabletPadWrapper.on_destroy_notify (compositorAvailable : Bool)
    (pad : TabletPad) : List DestroyEvent :=
  if compositorAvailable then
    [ .destroyedCallback (TabletPad.weak_reference pad),
      .removeListener .onDestroy,
      .removeListener .button,
      .removeListener .ring,
      .removeListener .strip,
      .freeWrapper ]
  else []

/-- Selector for the removal of one specific listener slot. -/
def DestroyEvent.isRemoveOf (l : PadListener) : DestroyEvent → Bool
  | .removeListener l' => l' == l
  | _ => false

/-- Selector for the wrapper-box release action. -/
def DestroyEvent.isFree : DestroyEvent → Bool
  | .freeWrapper => true
  | _ => false

/-- Claim C1: for every Handle whose weak pointer still resolves, `upgrade`
fails with `AlreadyBorrowed` exactly while the shared liveliness flag reads
`true`; on success it sets the flag to `true` and returns a Resource rebuilt
from the Handle's stored identity, after which any further `upgrade` on any
connected Handle to the same cell fails with `AlreadyBorrowed` — so at most
one successfully-upgraded Resource per native identity is outstanding.
Stated for both `TabletPadHandle::upgrade` and `OutputHandle::upgrade`. -/
theorem upgrade_exclusive
    (h : TabletPadHandle) (s : CellState)
    (oh : OutputHandle) (so : OutputCell)
    (hc : h.connected = true) (hs : 0 < s.strong)
    (oc : oh.connected = true) (os : 0 < so.strong) :
    (s.flag = true →
      TabletPadHandle.upgrade h s = (.error .AlreadyBorrowed, s)) ∧
    (s.flag = false →
      TabletPadHandle.upgrade h s =
        (.ok { device := h.device, pad := h.pad },
         { strong := s.strong + 1, flag := true }) ∧
      ∀ h' : TabletPadHandle, h'.connected = true →
        (TabletPadHandle.upgrade h'
            { strong := s.strong + 1, flag := true }).1 =
          .error .AlreadyBorrowed) ∧
    (so.flag = true →
      OutputHandle.upgrade oh so = (.error .AlreadyBorrowed, so)) ∧
    (so.flag = false →
      OutputHandle.upgrade oh so =
        (.ok { damage := oh.damage, output := oh.output },
         { strong := so.strong + 1, flag := true,
           damageDrops := so.damageDrops })) := by
  obtain ⟨n, fl⟩ := s
  obtain ⟨m, flo, dd⟩ := so
  simp only [CellState.flag, CellState.strong, OutputCell.flag,
             OutputCell.strong, OutputCell.damageDrops] at *
  refine ⟨?_, ?_, ?_, ?_⟩
  · intro hf
    subst hf
    simp [TabletPadHandle.upgrade, TabletPad.from_handle,
          TabletPadHandle.input_device, weakUpgrade, TabletPad.drop, hc, hs]
  · intro hf
    subst hf
    refine ⟨?_, ?_⟩
    · simp [TabletPadHandle.upgrade, TabletPad.from_handle,
            TabletPadHandle.input_device, weakUpgrade, TabletPad.drop, hc, hs]
    · intro h' hc'
      simp [TabletPadHandle.upgrade, TabletPad.from_handle,
            TabletPadHandle.input_device, weakUpgrade, TabletPad.drop, hc']
  · intro hf
    subst hf
    simp [OutputHandle.upgrade, Output.from_handle, weakUpgradeOut,
          Output.drop, oc, os, Nat.succ_ne_zero]
  · intro hf
    subst hf
    simp [OutputHandle.upgrade, Output.from_handle, weakUpgradeOut,
          Output.drop, oc, os]

/-- Witness for C1 at a concrete live cell. -/
theorem upgrade_exclusive_witness :
    TabletPadHandle.upgrade { connected := true, device := 5, pad := 7 }
        { strong := 1, flag := false } =
      (.ok { device := 5, pad := 7 }, { strong := 2, flag := true }) ∧
    OutputHandle.upgrade { connected := true, damage := 3, output := 9 }
        { strong := 1, flag := true, damageDrops := 0 } =
      (.error .AlreadyBorrowed, { strong := 1, flag := true, damageDrops := 0 }) := by
  have h := upgrade_exclusive
    { connected := true, device := 5, pad := 7 } { strong := 1, flag := false }
    { connected := true, damage := 3, output := 9 }
    { strong := 1, flag := true, damageDrops := 0 }
    rfl (by decide) rfl (by decide)
  exact ⟨(h.2.1 rfl).1, h.2.2.1 rfl⟩

/-- Claim C2: for a live, free resource, a `run` whose closure simply
computes a value (of any result type, in particular also an error-like
value) succeeds, restores the liveliness flag to `false` — the final cell
state is exactly the initial one — and a subsequent `run` on the same Handle
succeeds again.  Stated for both `TabletPadHandle::run` and
`OutputHandle::run`. -/
theorem run_release_correct {R : Type} (g : TabletPad → R) (gO : Output → R)
    (h : TabletPadHandle) (s : CellState)
    (oh : OutputHandle) (so : OutputCell)
    (hc : h.connected = true) (hs : 0 < s.strong) (hf : s.flag = false)
    (oc : oh.connected = true) (os : 0 < so.strong) (ofl : so.flag = false) :
    TabletPadHandle.run h (fun p st => (.ok (g p), st)) s =
      (.ok (g { device := h.device, pad := h.pad }), s) ∧
    (TabletPadHandle.run h (fun p st => (.ok (g p), st))
        (TabletPadHandle.run h (fun p st => (.ok (g p), st)) s).2).1 =
      .ok (g { device := h.device, pad := h.pad }) ∧
    OutputHandle.run oh (fun o st => (.ok (gO o), st)) so =
      (.ok (gO { damage := oh.damage, output := oh.output }), so) ∧
    (OutputHandle.run oh (fun o st => (.ok (gO o), st))
        (OutputHandle.run oh (fun o st => (.ok (gO o), st)) so).2).1 =
      .ok (gO { damage := oh.damage, output := oh.output }) := by
  obtain ⟨n, fl⟩ := s
  obtain ⟨m, flo, dd⟩ := so
  simp only [CellState.flag, CellState.strong, OutputCell.flag,
             OutputCell.strong] at *
  subst hf; subst ofl
  have main : TabletPadHandle.run h (fun p st => (.ok (g p), st))
      ⟨n, false⟩ = (.ok (g { device := h.device, pad := h.pad }), ⟨n, false⟩) := by
    simp [TabletPadHandle.run, TabletPadHandle.upgrade, TabletPad.from_handle,
          TabletPadHandle.input_device, weakUpgrade, TabletPad.drop, hc, hs]
  have mainO : OutputHandle.run oh (fun o st => (.ok (gO o), st))
      ⟨m, false, dd⟩ =
      (.ok (gO { damage := oh.damage, output := oh.output }), ⟨m, false, dd⟩) := by
    simp [OutputHandle.run, OutputHandle.upgrade, Output.from_handle,
          weakUpgradeOut, Output.drop, oc, os, Nat.succ_ne_zero]
    omega
  refine ⟨main, ?_, mainO, ?_⟩
  · rw [main, main]
  · rw [mainO, mainO]

/-- Witness for C2 at a concrete live, free cell. -/
theorem run_release_correct_witness :
    TabletPadHandle.run { connected := true, device := 5, pad := 7 }
        (fun p st => (.ok p.pad, st)) { strong := 1, flag := false } =
      (.ok 7, { strong := 1, flag := false }) ∧
    OutputHandle.run { connected := true, damage := 3, output := 9 }
        (fun o st => (.ok o.output, st))
        { strong := 1, flag := false, damageDrops := 0 } =
      (.ok 9, { strong := 1, flag := false, damageDrops := 0 }) := by
  have h := run_release_correct (fun p => p.pad) (fun o => o.output)
    { connected := true, device := 5, pad := 7 } { strong := 1, flag := false }
    { connected := true, damage := 3, output := 9 }
    { strong := 1, flag := false, damageDrops := 0 }
    rfl (by decide) rfl rfl (by decide) rfl
  exact ⟨h.1, h.2.2.1⟩

/-- Claim C3: once the owning Resource is gone (strong count 0, so no weak
pointer resolves), every existing Handle and every Handle cloned from one
fails `upgrade` and `run` with `AlreadyDropped`, the cell state is left
untouched, and any sequence of further `run` attempts fails the same way —
`Dead` is terminal. -/
theorem dead_is_terminal {R : Type} (h : TabletPadHandle) (s : CellState)
    (f : TabletPad → CellState → ClosureRes R × CellState)
    (fs : List (TabletPad → CellState → ClosureRes Unit × CellState))
    (hs : s.strong = 0) :
    TabletPadHandle.upgrade h s = (.error .AlreadyDropped, s) ∧
    TabletPadHandle.run h f s = (.err .AlreadyDropped, s) ∧
    TabletPadHandle.clone h = h ∧
    TabletPadHandle.upgrade (TabletPadHandle.clone h) s =
      (.error .AlreadyDropped, s) ∧
    TabletPadHandle.run (TabletPadHandle.clone h) f s =
      (.err .AlreadyDropped, s) ∧
    TabletPadHandle.runAll h fs s =
      (fs.map fun _ => .err .AlreadyDropped, s) := by
  have hup : TabletPadHandle.upgrade h s = (.error .AlreadyDropped, s) := by
    simp [TabletPadHandle.upgrade, weakUpgrade, hs]
  have hrun : TabletPadHandle.run h f s = (.err .AlreadyDropped, s) := by
    simp [TabletPadHandle.run, hup]
  have hclone : TabletPadHandle.clone h = h := rfl
  refine ⟨hup, hrun, hclone, by rw [hclone]; exact hup, by rw [hclone]; exact hrun, ?_⟩
  induction fs with
  | nil => simp [TabletPadHandle.runAll]
  | cons f' rest ih =>
    have hrun' : TabletPadHandle.run h f' s = (.err .AlreadyDropped, s) := by
      simp [TabletPadHandle.run, hup]
    simp [TabletPadHandle.runAll, hrun', ih]

/-- Witness for C3 at a concrete dead cell. -/
theorem dead_is_terminal_witness :
    TabletPadHandle.run { connected := true, device := 5, pad := 7 }
        (fun p st => ((.ok p.pad : ClosureRes Nat), st))
        { strong := 0, flag := false } =
      (.err .AlreadyDropped, { strong := 0, flag := false }) ∧
    TabletPadHandle.runAll { connected := true, device := 5, pad := 7 }
        [fun _ st => (.ok (), st), fun _ st => (.ok (), st)]
        { strong := 0, flag := false } =
      ([.err .AlreadyDropped, .err .AlreadyDropped],
       { strong := 0, flag := false }) := by
  have h := dead_is_terminal { connected := true, device := 5, pad := 7 }
    { strong := 0, flag := false } (fun p st => ((.ok p.pad : ClosureRes Nat), st))
    [fun _ st => (.ok (), st), fun _ st => (.ok (), st)] rfl
  exact ⟨h.2.1, h.2.2.2.2.2⟩

/-- Counterexample to claim C4 as stated: after a successful upgrade of a
concrete live Handle, dropping the temporary Resource (running the `Drop`
impl on the post-upgrade cell) leaves the liveliness flag `true` — the
`Drop` impl of the Resource does not reset the flag to `false`. -/
theorem drop_does_not_reset_flag_cex :
    (TabletPadHandle.upgrade { connected := true, device := 1, pad := 2 }
        { strong := 1, flag := false }).1 = .ok { device := 1, pad := 2 } ∧
    (TabletPad.drop
        (TabletPadHandle.upgrade { connected := true, device := 1, pad := 2 }
          { strong := 1, flag := false }).2).flag = true :=
  ⟨rfl, rfl⟩

/-- Claim C4 (amended): the CheckedOut → Owned transition happens inside
`run` — after the closure completes (success or panic) `run`'s release step
resets the shared liveliness flag to `false` before the temporary Resource
is dropped; the Resource `Drop` impls themselves never change the flag and
only decrement the strong count (the Output drop additionally destroys the
damage tracker when it is the last strong holder). -/
theorem run_resets_flag_on_release {R : Type} (g : TabletPad → R)
    (gO : Output → R) (h : TabletPadHandle) (s : CellState)
    (oh : OutputHandle) (so : OutputCell)
    (hc : h.connected = true) (hs : 0 < s.strong) (hf : s.flag = false)
    (oc : oh.connected = true) (os : 0 < so.strong) (ofl : so.flag = false) :
    (∀ t : CellState, (TabletPad.drop t).flag = t.flag) ∧
    (∀ t : OutputCell, (Output.drop t).flag = t.flag) ∧
    (∀ t : CellState, (TabletPad.drop t).strong = t.strong - 1) ∧
    ((TabletPadHandle.run h (fun p st => (.ok (g p), st)) s).2).flag = false ∧
    ((TabletPadHandle.run h
        (fun _ st => ((.panicked : ClosureRes R), st)) s).2).flag = false ∧
    ((OutputHandle.run oh (fun o st => (.ok (gO o), st)) so).2).flag = false := by
  obtain ⟨n, fl⟩ := s
  obtain ⟨m, flo, dd⟩ := so
  simp only [CellState.flag, CellState.strong, OutputCell.flag,
             OutputCell.strong] at *
  subst hf; subst ofl
  refine ⟨fun t => rfl, ?_, fun t => rfl, ?_, ?_, ?_⟩
  · intro t
    unfold Output.drop
    split <;> rfl
  · simp [TabletPadHandle.run, TabletPadHandle.upgrade, TabletPad.from_handle,
          TabletPadHandle.input_device, weakUpgrade, TabletPad.drop, hc, hs]
  · simp [TabletPadHandle.run, TabletPadHandle.upgrade, TabletPad.from_handle,
          TabletPadHandle.input_device, weakUpgrade, TabletPad.drop, hc, hs]
  · simp [OutputHandle.run, OutputHandle.upgrade, Output.from_handle,
          weakUpgradeOut, Output.drop, oc, os, Nat.succ_ne_zero]
    split <;> rfl

/-- Witness for the amended C4 at a concrete live, free cell. -/
theorem run_resets_flag_on_release_witness :
    ((TabletPadHandle.run { connected := true, device := 5, pad := 7 }
        (fun p st => ((.ok p.pad : ClosureRes Nat), st))
        { strong := 1, flag := false }).2).flag = false ∧
    ((OutputHandle.run { connected := true, damage := 3, output := 9 }
        (fun o st => ((.ok o.output : ClosureRes Nat), st))
        { strong := 1, flag := false, damageDrops := 0 }).2).flag = false := by
  have h := run_resets_flag_on_release (fun p => p.pad) (fun o => o.output)
    { connected := true, device := 5, pad := 7 } { strong := 1, flag := false }
    { connected := true, damage := 3, output := 9 }
    { strong := 1, flag := false, damageDrops := 0 }
    rfl (by decide) rfl rfl (by decide) rfl
  exact ⟨h.2.2.2.1, h.2.2.2.2.2⟩

/-- Claim C5: when the closure passed to `run` panics (and does not tamper
with the cell), `run` still performs its cleanup — the liveliness flag is
reset to `false` and the transient strong references are dropped, so the
final cell state equals the initial one — and the outcome is the re-raised
panic (`closurePanic`), never a swallowed success and never a typed
`HandleErr`.  Stated for both `TabletPadHandle::run` and
`OutputHandle::run`. -/
theorem run_panic_cleanup {R : Type} (h : TabletPadHandle) (s : CellState)
    (oh : OutputHandle) (so : OutputCell)
    (hc : h.connected = true) (hs : 0 < s.strong) (hf : s.flag = false)
    (oc : oh.connected = true) (os : 0 < so.strong) (ofl : so.flag = false) :
    TabletPadHandle.run h (fun _ st => ((.panicked : ClosureRes R), st)) s =
      (.closurePanic, s) ∧
    OutputHandle.run oh (fun _ st => ((.panicked : ClosureRes R), st)) so =
      (.closurePanic, so) := by
  obtain ⟨n, fl⟩ := s
  obtain ⟨m, flo, dd⟩ := so
  simp only [CellState.flag, CellState.strong, OutputCell.flag,
             OutputCell.strong] at *
  subst hf; subst ofl
  have hm : ¬ m = 0 := by omega
  constructor
  · simp [TabletPadHandle.run, TabletPadHandle.upgrade, TabletPad.from_handle,
          TabletPadHandle.input_device, weakUpgrade, TabletPad.drop, hc, hs]
  · simp [OutputHandle.run, OutputHandle.upgrade, Output.from_handle,
          weakUpgradeOut, Output.drop, oc, os, hm]

/-- Witness for C5 at a concrete live, free cell. -/
theorem run_panic_cleanup_witness :
    TabletPadHandle.run { connected := true, device := 5, pad := 7 }
        (fun _ st => ((.panicked : ClosureRes Nat), st))
        { strong := 1, flag := false } =
      (.closurePanic, { strong := 1, flag := false }) ∧
    OutputHandle.run { connected := true, damage := 3, output := 9 }
        (fun _ st => ((.panicked : ClosureRes Nat), st))
        { strong := 1, flag := false, damageDrops := 0 } =
      (.closurePanic, { strong := 1, flag := false, damageDrops := 0 }) :=
  run_panic_cleanup { connected := true, device := 5, pad := 7 }
    { strong := 1, flag := false }
    { connected := true, damage := 3, output := 9 }
    { strong := 1, flag := false, damageDrops := 0 }
    rfl (by decide) rfl rfl (by decide) rfl

/-- Claim C6: starting a `run` on a live, free resource, the fatal
"Lock in incorrect state!" panic is the outcome exactly when, after the
closure has run, the weak pointer still resolves (the strong count the
closure left behind is positive) and the liveliness flag was found reset to
`false` out from under the call; in every such case the outcome is the
fatal panic and never a typed `AlreadyDropped`/`AlreadyBorrowed` error.
Stated for both `TabletPadHandle::run` and `OutputHandle::run`. -/
theorem run_fatal_iff {R : Type} (h : TabletPadHandle) (s : CellState)
    (f : TabletPad → CellState → ClosureRes R × CellState)
    (oh : OutputHandle) (so : OutputCell)
    (fo : Output → OutputCell → ClosureRes R × OutputCell)
    (hc : h.connected = true) (hs : 0 < s.strong) (hf : s.flag = false)
    (oc : oh.connected = true) (os : 0 < so.strong) (ofl : so.flag = false) :
    ((TabletPadHandle.run h f s).1 = .fatalPanic ↔
      (0 < (f { device := h.device, pad := h.pad }
              { strong := s.strong + 1, flag := true }).2.strong ∧
       (f { device := h.device, pad := h.pad }
              { strong := s.strong + 1, flag := true }).2.flag = false)) ∧
    ((OutputHandle.run oh fo so).1 = .fatalPanic ↔
      (0 < (fo { damage := oh.damage, output := oh.output }
              { strong := so.strong + 1, flag := true,
                damageDrops := so.damageDrops }).2.strong ∧
       (fo { damage := oh.damage, output := oh.output }
              { strong := so.strong + 1, flag := true,
                damageDrops := so.damageDrops }).2.flag = false)) := by
  obtain ⟨n, fl⟩ := s
  obtain ⟨m, flo, dd⟩ := so
  simp only [CellState.flag, CellState.strong, OutputCell.flag,
             OutputCell.strong, OutputCell.damageDrops] at *
  subst hf; subst ofl
  constructor
  · have hup : TabletPadHandle.upgrade h ⟨n, false⟩ =
        (.ok { device := h.device, pad := h.pad }, ⟨n + 1, true⟩) := by
      simp [TabletPadHandle.upgrade, TabletPad.from_handle,
            TabletPadHandle.input_device, weakUpgrade, TabletPad.drop, hc, hs]
    rcases hr : f { device := h.device, pad := h.pad } ⟨n + 1, true⟩
      with ⟨res, s2⟩
    obtain ⟨m2, fl2⟩ := s2
    simp only [TabletPadHandle.run, hup, hr]
    by_cases hm2 : 0 < m2
    · cases fl2
      · simp [weakUpgrade, hc, hm2]
      · cases res <;> simp [weakUpgrade, hc, hm2]
    · cases res <;> simp [weakUpgrade, hc, hm2]
  · have hup : OutputHandle.upgrade oh ⟨m, false, dd⟩ =
        (.ok { damage := oh.damage, output := oh.output }, ⟨m + 1, true, dd⟩) := by
      simp [OutputHandle.upgrade, Output.from_handle, weakUpgradeOut,
            Output.drop, oc, os]
    rcases hr : fo { damage := oh.damage, output := oh.output } ⟨m + 1, true, dd⟩
      with ⟨res, s2⟩
    obtain ⟨m2, fl2, dd2⟩ := s2
    simp only [OutputHandle.run, hup, hr]
    by_cases hm2 : 0 < m2
    · cases fl2
      · simp [weakUpgradeOut, oc, hm2]
      · cases res <;> simp [weakUpgradeOut, oc, hm2]
    · cases res <;> simp [weakUpgradeOut, oc, hm2]

/-- Witness for C6: a closure that tampers with the flag (resetting it to
`false`) makes `run` end in the fatal panic on a concrete live cell. -/
theorem run_fatal_iff_witness :
    (TabletPadHandle.run { connected := true, device := 5, pad := 7 }
        (fun _ st => ((.ok 0 : ClosureRes Nat), { st with flag := false }))
        { strong := 1, flag := false }).1 = .fatalPanic :=
  (run_fatal_iff { connected := true, device := 5, pad := 7 }
      { strong := 1, flag := false }
      (fun _ st => ((.ok 0 : ClosureRes Nat), { st with flag := false }))
      { connected := true, damage := 3, output := 9 }
      { strong := 1, flag := false, damageDrops := 0 }
      (fun _ st => ((.ok 0 : ClosureRes Nat), st))
      rfl (by decide) rfl rfl (by decide) rfl).1.mpr (by decide)

/-- Claim C7: the damage tracker owned by an `Output` is destroyed exactly
once, and only when the Resource being dropped is the last strong holder of
the liveliness flag (strong count 1) — the destruction leaves strong count
0, so no further Resource for that cell can be dropped; dropping while
another strong holder remains never destroys the tracker, and in particular
a whole `run` cycle (whose transient Resource is dropped while the owner
still holds the flag) leaves the damage-destruction count unchanged. -/
theorem output_damage_destroyed_once {R : Type} (gO : Output → R)
    (s : OutputCell) (oh : OutputHandle) (so : OutputCell)
    (oc : oh.connected = true) (os : 0 < so.strong) (ofl : so.flag = false) :
    (s.strong = 1 →
      Output.drop s =
        { strong := 0, flag := s.flag, damageDrops := s.damageDrops + 1 }) ∧
    (2 ≤ s.strong →
      (Output.drop s).damageDrops = s.damageDrops ∧
      (Output.drop s).strong = s.strong - 1) ∧
    ((OutputHandle.run oh (fun o st => (.ok (gO o), st)) so).2).damageDrops =
      so.damageDrops := by
  obtain ⟨m, flo, dd⟩ := so
  simp only [OutputCell.flag, OutputCell.strong, OutputCell.damageDrops] at *
  subst ofl
  have hm : ¬ m = 0 := by omega
  refine ⟨?_, ?_, ?_⟩
  · intro h1
    simp [Output.drop, h1]
  · intro h2
    have hne : ¬ s.strong = 1 := by omega
    simp [Output.drop, hne]
  · simp [OutputHandle.run, OutputHandle.upgrade, Output.from_handle,
          weakUpgradeOut, Output.drop, oc, os, hm]

/-- Witness for C7 at concrete cells: the last-holder drop destroys the
tracker once, a drop with another holder remaining does not, and a full
`run` cycle leaves the count unchanged. -/
theorem output_damage_destroyed_once_witness :
    Output.drop { strong := 1, flag := false, damageDrops := 0 } =
      { strong := 0, flag := false, damageDrops := 1 } ∧
    (Output.drop { strong := 2, flag := true, damageDrops := 0 }).damageDrops = 0 ∧
    ((OutputHandle.run { connected := true, damage := 3, output := 9 }
        (fun o st => ((.ok o.output : ClosureRes Nat), st))
        { strong := 1, flag := false, damageDrops := 0 }).2).damageDrops = 0 := by
  have h1 := output_damage_destroyed_once (fun o => o.output)
    { strong := 1, flag := false, damageDrops := 0 }
    { connected := true, damage := 3, output := 9 }
    { strong := 1, flag := false, damageDrops := 0 }
    rfl (by decide) rfl
  have h2 := output_damage_destroyed_once (fun o => o.output)
    { strong := 2, flag := true, damageDrops := 0 }
    { connected := true, damage := 3, output := 9 }
    { strong := 1, flag := false, damageDrops := 0 }
    rfl (by decide) rfl
  exact ⟨h1.1 rfl, (h2.2.1 (by decide)).1, h1.2.2⟩

/-- Claim C8: when the destroy notification fires (and the compositor handle
resolves), the wrapper first invokes the user-supplied `destroyed` callback
with a Handle (`weak_reference`) to the about-to-die pad — it is the first
observable action, hence strictly before everything else — then removes
each of the four native listener subscriptions exactly once, and releases
the wrapper allocation exactly once, as the last action. -/
theorem on_destroy_notify_order (avail : Bool) (pad : TabletPad)
    (ha : avail = true) :
    (TabletPadWrapper.on_destroy_notify avail pad).head? =
      some (.destroyedCallback (TabletPad.weak_reference pad)) ∧
    (∀ l : PadListener,
      (TabletPadWrapper.on_destroy_notify avail pad).filter
        (DestroyEvent.isRemoveOf l) = [.removeListener l]) ∧
    (TabletPadWrapper.on_destroy_notify avail pad).filter DestroyEvent.isFree =
      [.freeWrapper] ∧
    (TabletPadWrapper.on_destroy_notify avail pad).getLast? =
      some .freeWrapper := by
  subst ha
  refine ⟨rfl, ?_, rfl, rfl⟩
  intro l
  cases l <;> rfl

/-- Witness for C8 at a concrete pad. -/
theorem on_destroy_notify_order_witness :
    (TabletPadWrapper.on_destroy_notify true { device := 5, pad := 7 }).head? =
      some (.destroyedCallback { connected := true, device := 5, pad := 7 }) ∧
    (TabletPadWrapper.on_destroy_notify true { device := 5, pad := 7 }).filter
      (DestroyEvent.isRemoveOf PadListener.button) =
      [.removeListener PadListener.button] :=
  have h := on_destroy_notify_order true { device := 5, pad := 7 } rfl
  ⟨h.1, h.2.1 PadListener.button⟩

/-- Claim C9: equality and hashing of Handles are functions of the stored
native pointer alone (they take no liveliness state at all, so they are
unaffected by the flag and by destruction): two `TabletPadHandle`s are equal
iff their pad pointers agree, the hash feeds only the pad pointer to the
hasher, and a clone is equal to and hashes identically with the original;
two `OutputHandle`s are equal iff their output pointers agree. -/
theorem handle_eq_hash_by_identity :
    (∀ a b : TabletPadHandle,
      TabletPadHandle.eq a b = true ↔ a.pad = b.pad) ∧
    (∀ (hasher : Nat → Nat) (a b : TabletPadHandle), a.pad = b.pad →
      TabletPadHandle.hashWith hasher a = TabletPadHandle.hashWith hasher b) ∧
    (∀ a : TabletPadHandle,
      TabletPadHandle.eq (TabletPadHandle.clone a) a = true) ∧
    (∀ (hasher : Nat → Nat) (a : TabletPadHandle),
      TabletPadHandle.hashWith hasher (TabletPadHandle.clone a) =
        TabletPadHandle.hashWith hasher a) ∧
    (∀ a b : OutputHandle,
      OutputHandle.eq a b = true ↔ a.output = b.output) ∧
    (∀ a : OutputHandle,
      OutputHandle.eq (OutputHandle.clone a) a = true) := by
  refine ⟨fun a b => ?_, fun hasher a b hab => ?_, fun a => ?_,
          fun hasher a => ?_, fun a b => ?_, fun a => ?_⟩
  · simp [TabletPadHandle.eq]
  · simp [TabletPadHandle.hashWith, hab]
  · simp [TabletPadHandle.eq, TabletPadHandle.clone]
  · simp [TabletPadHandle.hashWith, TabletPadHandle.clone]
  · simp [OutputHandle.eq]
  · simp [OutputHandle.eq, OutputHandle.clone]

/-- Witness for C9 at concrete handles: a connected and an unconnected
handle with the same pad pointer are equal and hash identically. -/
theorem handle_eq_hash_by_identity_witness :
    TabletPadHandle.eq { connected := true, device := 5, pad := 7 }
      { connected := false, device := 0, pad := 7 } = true ∧
    TabletPadHandle.hashWith (fun x => x * x + 1)
        { connected := true, device := 5, pad := 7 } =
      TabletPadHandle.hashWith (fun x => x * x + 1)
        { connected := false, device := 0, pad := 7 } :=
  ⟨(handle_eq_hash_by_identity.1
      { connected := true, device := 5, pad := 7 }
      { connected := false, device := 0, pad := 7 }).mpr rfl,
   handle_eq_hash_by_identity.2.1 (fun x => x * x + 1)
      { connected := true, device := 5, pad := 7 }
      { connected := false, device := 0, pad := 7 } rfl⟩

/-- Claim C10: a Handle built by the parameterless constructor `new`
(equally `Default::default`) stores null pointers and a `Weak::new()` that
can never resolve: in every cell state and for every closure, `upgrade`,
`run` and the `input_device` metadata accessor all fail with
`AlreadyDropped` (leaving the state untouched) — the stored null pointers
are never consulted. -/
theorem new_handle_always_dropped {R : Type} (s : CellState) (so : OutputCell)
    (f : TabletPad → CellState → ClosureRes R × CellState)
    (fo : Output → OutputCell → ClosureRes R × OutputCell) :
    TabletPadHandle.new.pad = 0 ∧
    TabletPadHandle.new.device = 0 ∧
    TabletPadHandle.upgrade TabletPadHandle.new s =
      (.error .AlreadyDropped, s) ∧
    TabletPadHandle.run TabletPadHandle.new f s = (.err .AlreadyDropped, s) ∧
    TabletPadHandle.input_device TabletPadHandle.new s =
      .error .AlreadyDropped ∧
    TabletPadHandle.default = TabletPadHandle.new ∧
    OutputHandle.new.output = 0 ∧
    OutputHandle.upgrade OutputHandle.new so = (.error .AlreadyDropped, so) ∧
    OutputHandle.run OutputHandle.new fo so = (.err .AlreadyDropped, so) ∧
    OutputHandle.default = OutputHandle.new := by
  have hup : TabletPadHandle.upgrade TabletPadHandle.new s =
      (.error .AlreadyDropped, s) := by
    simp [TabletPadHandle.upgrade, weakUpgrade, TabletPadHandle.new]
  have hupO : OutputHandle.upgrade OutputHandle.new so =
      (.error .AlreadyDropped, so) := by
    simp [OutputHandle.upgrade, weakUpgradeOut, OutputHandle.new]
  refine ⟨rfl, rfl, hup, ?_, ?_, rfl, rfl, hupO, ?_, rfl⟩
  · simp [TabletPadHandle.run, hup]
  · simp [TabletPadHandle.input_device, weakUpgrade, TabletPadHandle.new]
  · simp [OutputHandle.run, hupO]
